import Mathlib

/-!
Shallow embedding of the `json-decode` crate (src/lib.rs, src/decoders.rs):
a combinator library turning a `serde_json::Value` tree into typed values.

A decoder is the single-operation capability
`decode(&self, value: &serde_json::Value) -> Result<T, DecodeError>`
(src/lib.rs, trait `Decoder`); every decoder of the crate is a pure function
of the input value, so it embeds as a Lean function `Value → Except DecodeError T`.

The JSON tree itself is produced by the external collaborator `serde_json`:
we embed its `Value` enum, its `Number` (PosInt / NegInt / Float, where the
f64 payload of `Float` is kept only as its rendered text — no floating-point
arithmetic is modelled), its integer accessors `as_i64` / `as_u64`, and the
compact `Display` serialization that the decoders use for the textual
snapshots carried inside errors.
-/

namespace JsonDecode

/-- Embedding of `serde_json::Number`: an u64 (`posInt`), an i64 that is negative
(`negInt`), or an f64 (`float`, kept as its rendered text; the float value
itself belongs to the external collaborator). -/
inductive JNumber : Type
  | posInt (n : Nat)
  | negInt (n : Int)
  | float (text : String)

/-- Embedding of `serde_json::Value`: the tagged JSON tree consumed (never mutated) by the
decoders. An `Object` is its list of key/value members; `get` is exact-match
key lookup. -/
inductive Value : Type
  | null
  | bool (b : Bool)
  | number (n : JNumber)
  | str (s : String)
  | array (items : List Value)
  | obj (fields : List (String × Value))

/-- Embedding of `DecodeError` from src/lib.rs: the closed union of failure kinds. -/
inductive DecodeError : Type
  | MissingField (field : String) (value : String)
  | IncorrectType (expected : String) (found : String)
  | InvalidInteger (value : String)
  | IntegerOverflow (value : String) (target : String)
  | SerdeError (msg : String)
  | Other (msg : String)
  deriving DecidableEq

/-- Embedding of `serde_json::Number::as_i64`: a `PosInt` fits iff it is at most
`i64::MAX`; a `NegInt` always fits; a `Float` never has an i64 reading. -/
def JNumber.asI64 : JNumber → Option Int
  | .posInt n => if n ≤ 9223372036854775807 then some (Int.ofNat n) else none
  | .negInt n => some n
  | .float _ => none

/-- Embedding of `serde_json::Number::as_u64`: a `PosInt` always fits; a `NegInt` or a
`Float` never has a u64 reading. -/
def JNumber.asU64 : JNumber → Option Nat
  | .posInt n => some n
  | .negInt _ => none
  | .float _ => none

/-- One character of serde_json's string escaping (compact serializer):
quote and backslash get a backslash escape, the named control characters get
their short escapes, other control characters become a `\u00` hex escape,
everything else is passed through. -/
def escapeChar (c : Char) : String :=
  if c.toNat = 34 then "\\\""
  else if c.toNat = 92 then "\\\\"
  else if c.toNat = 8 then "\\b"
  else if c.toNat = 12 then "\\f"
  else if c.toNat = 10 then "\\n"
  else if c.toNat = 13 then "\\r"
  else if c.toNat = 9 then "\\t"
  else if c.toNat < 32 then
    "\\u00" ++ String.mk [Nat.digitChar (c.toNat / 16), Nat.digitChar (c.toNat % 16)]
  else String.mk [c]

/-- serde_json's string escaping, character by character. -/
def escapeText (s : String) : String :=
  String.join (s.toList.map escapeChar)

/-- Serialization of `serde_json::Number` by its `Display`: decimal text for the integer variants,
the collaborator-rendered text for a float. -/
def JNumber.toText : JNumber → String
  | .posInt n => toString n
  | .negInt n => toString n
  | .float text => text

mutual

/-- Embedding of `serde_json::Value::to_string()`: the compact serialization used by every
decoder for the textual snapshot inside an error. -/
def Value.toText : Value → String
  | .null => "null"
  | .bool b => if b then "true" else "false"
  | .number n => n.toText
  | .str s => "\"" ++ escapeText s ++ "\""
  | .array items => "[" ++ toTextArray items ++ "]"
  | .obj fields => "\x7b" ++ toTextFields fields ++ "\x7d"

/-- Comma-separated serialization of an array's items. -/
def toTextArray : List Value → String
  | [] => ""
  | [v] => v.toText
  | v :: rest => v.toText ++ "," ++ toTextArray rest

/-- Comma-separated serialization of an object's `"key":value` members. -/
def toTextFields : List (String × Value) → String
  | [] => ""
  | [(k, v)] => "\"" ++ escapeText k ++ "\":" ++ v.toText
  | (k, v) :: rest => "\"" ++ escapeText k ++ "\":" ++ v.toText ++ "," ++ toTextFields rest

end

/-- Tag test: is the value an `Object`? -/
def Value.isObj : Value → Bool
  | .obj _ => true
  | _ => false

/-- Tag test: is the value an `Array`? -/
def Value.isArray : Value → Bool
  | .array _ => true
  | _ => false

/-- Tag test: is the value a `String`? -/
def Value.isStringTag : Value → Bool
  | .str _ => true
  | _ => false

/-- Tag test: is the value `Null`? -/
def Value.isNull : Value → Bool
  | .null => true
  | _ => false

/-- The `Decoder` capability of src/lib.rs: `decode(value) -> Result<T, DecodeError>`. -/
abbrev Decoder (α : Type) : Type := Value → Except DecodeError α

/-- Decode function of `FieldDecoder` (src/decoders.rs): on an `Object`, look the field
name up; a missing key is `MissingField(name, value.to_string())`, a present
key delegates to the inner decoder on the sub-value. Any other tag is
`IncorrectType("Object", value.to_string())`. -/
def field (fieldName : String) (inner : Decoder α) : Decoder α := fun value =>
  match value with
  | .obj map =>
    match map.lookup fieldName with
    | some innerValue => inner innerValue
    | none => .error (.MissingField fieldName (Value.obj map).toText)
  | v => .error (.IncorrectType "Object" v.toText)

/-- Decode function of `StringDecoder` (src/decoders.rs): a `String` value yields a copy
of its text, any other tag is `IncorrectType("String", value.to_string())`. -/
def string : Decoder String := fun value =>
  match value with
  | .str s => .ok s
  | v => .error (.IncorrectType "String" v.toText)

/-- Decode function of `IntDecoder` (src/decoders.rs): on a `Number`, read it with
`as_i64` and convert with the target's infallible `From<i64>` conversion
(the identity at the bound's base type `i64`, embedded as `Int`); a number
with no i64 reading is `InvalidInteger(value.to_string())`, any other tag is
`IncorrectType("Number", value.to_string())`. No narrowing or overflow check
appears in the source. -/
def integer : Decoder Int := fun value =>
  match value with
  | .number n =>
    match n.asI64 with
    | some i => .ok i
    | none => .error (.InvalidInteger (Value.number n).toText)
  | v => .error (.IncorrectType "Number" v.toText)

/-- Decode function of `UIntDecoder` (src/decoders.rs): as `integer` but reading with
`as_u64` (target bound `From<u64>`, embedded at the base type as `Nat`). -/
def unsignedInteger : Decoder Nat := fun value =>
  match value with
  | .number n =>
    match n.asU64 with
    | some u => .ok u
    | none => .error (.InvalidInteger (Value.number n).toText)
  | v => .error (.IncorrectType "Number" v.toText)

/-- Decode function of `FloatDecoder` (src/decoders.rs), parameterized by the external
collaborator `serde_json::Number::as_f64` (and the target's `From<f64>`
conversion composed into it): on a `Number`, a successful reading is returned,
a number with no f64 reading is `InvalidInteger(value.to_string())`, any other
tag is `IncorrectType("Number", value.to_string())`. The decoder's own
structure — the tag check and the choice of error constructors — is the
code's; only the floating-point reading itself is left abstract. -/
def float (asF64 : JNumber → Option F) : Decoder F := fun value =>
  match value with
  | .number n =>
    match asF64 n with
    | some f => .ok f
    | none => .error (.InvalidInteger (Value.number n).toText)
  | v => .error (.IncorrectType "Number" v.toText)

/-- Decode function of `BooleanDecoder` (src/decoders.rs). -/
def boolean : Decoder Bool := fun value =>
  match value with
  | .bool b => .ok b
  | v => .error (.IncorrectType "Boolean" v.toText)

/-- Decode function of `OptionDecoder` (src/decoders.rs): `Null` is `Ok(None)`; any
other value delegates to the inner decoder and wraps success with `Some`. -/
def option (inner : Decoder α) : Decoder (Option α) := fun value =>
  match value with
  | .null => .ok none
  | other => (inner other).map some

/-- Decode function of `ListDecoder` (src/decoders.rs): on an `Array`, decode every
item in order with the inner decoder and collect the results
(`iter().map(decode).collect::<Result<_, _>>()`, i.e. monadic `mapM` over
`Except`); any other tag is `IncorrectType("Array", value.to_string())`. -/
def list (inner : Decoder α) : Decoder (List α) := fun value =>
  match value with
  | .array items => items.mapM inner
  | v => .error (.IncorrectType "Array" v.toText)

/-- Decode function of `DecoderFn1` (src/decoders.rs, constructor `map`): decode with
the single child decoder and apply the combining function to the result. -/
def map (func : A1 → R) (d1 : Decoder A1) : Decoder R := fun value => do
  let a1 ← d1 value
  .ok (func a1)

/-- Decode functions of the `define_map_decoder` macro family (src/decoders.rs):
`mapN(func, d1, ..., dN)` decodes every child decoder against the same input
value in declared order with the `?` operator and applies `func` once to the
results. Arity 1 is `map` above (`DecoderFn1`); arities 2..20 follow. -/
def map2 (func : A1 → A2 → R) (d1 : Decoder A1) (d2 : Decoder A2) : Decoder R := fun value => do
  let a1 ← d1 value
  let a2 ← d2 value
  .ok (func a1 a2)

/-- Decode function of `Fn3Decoder` (src/decoders.rs, `define_map_decoder`, constructor `map3`). -/
def map3 (func : A1 → A2 → A3 → R) (d1 : Decoder A1) (d2 : Decoder A2) (d3 : Decoder A3) : Decoder R := fun value => do
  let a1 ← d1 value
  let a2 ← d2 value
  let a3 ← d3 value
  .ok (func a1 a2 a3)

/-- Decode function of `Fn4Decoder` (src/decoders.rs, `define_map_decoder`, constructor `map4`). -/
def map4 (func : A1 → A2 → A3 → A4 → R) (d1 : Decoder A1) (d2 : Decoder A2) (d3 : Decoder A3) (d4 : Decoder A4) : Decoder R := fun value => do
  let a1 ← d1 value
  let a2 ← d2 value
  let a3 ← d3 value
  let a4 ← d4 value
  .ok (func a1 a2 a3 a4)

/-- Decode function of `Fn5Decoder` (src/decoders.rs, `define_map_decoder`, constructor `map5`). -/
def map5 (func : A1 → A2 → A3 → A4 → A5 → R) (d1 : Decoder A1) (d2 : Decoder A2) (d3 : Decoder A3) (d4 : Decoder A4) (d5 : Decoder A5) : Decoder R := fun value => do
  let a1 ← d1 value
  let a2 ← d2 value
  let a3 ← d3 value
  let a4 ← d4 value
  let a5 ← d5 value
  .ok (func a1 a2 a3 a4 a5)

/-- Decode function of `Fn6Decoder` (src/decoders.rs, `define_map_decoder`, constructor `map6`). -/
def map6 (func : A1 → A2 → A3 → A4 → A5 → A6 → R) (d1 : Decoder A1) (d2 : Decoder A2) (d3 : Decoder A3) (d4 : Decoder A4) (d5 : Decoder A5) (d6 : Decoder A6) : Decoder R := fun value => do
  let a1 ← d1 value
  let a2 ← d2 value
  let a3 ← d3 value
  let a4 ← d4 value
  let a5 ← d5 value
  let a6 ← d6 value
  .ok (func a1 a2 a3 a4 a5 a6)

/-- Decode function of `Fn7Decoder` (src/decoders.rs, `define_map_decoder`, constructor `map7`). -/
def map7 (func : A1 → A2 → A3 → A4 → A5 → A6 → A7 → R) (d1 : Decoder A1) (d2 : Decoder A2) (d3 : Decoder A3) (d4 : Decoder A4) (d5 : Decoder A5) (d6 : Decoder A6) (d7 : Decoder A7) : Decoder R := fun value => do
  let a1 ← d1 value
  let a2 ← d2 value
  let a3 ← d3 value
  let a4 ← d4 value
  let a5 ← d5 value
  let a6 ← d6 value
  let a7 ← d7 value
  .ok (func a1 a2 a3 a4 a5 a6 a7)

/-- Decode function of `Fn8Decoder` (src/decoders.rs, `define_map_decoder`, constructor `map8`). -/
def map8 (func : A1 → A2 → A3 → A4 → A5 → A6 → A7 → A8 → R) (d1 : Decoder A1) (d2 : Decoder A2) (d3 : Decoder A3) (d4 : Decoder A4) (d5 : Decoder A5) (d6 : Decoder A6) (d7 : Decoder A7) (d8 : Decoder A8) : Decoder R := fun value => do
  let a1 ← d1 value
  let a2 ← d2 value
  let a3 ← d3 value
  let a4 ← d4 value
  let a5 ← d5 value
  let a6 ← d6 value
  let a7 ← d7 value
  let a8 ← d8 value
  .ok (func a1 a2 a3 a4 a5 a6 a7 a8)

/-- Decode function of `Fn9Decoder` (src/decoders.rs, `define_map_decoder`, constructor `map9`). -/
def map9 (func : A1 → A2 → A3 → A4 → A5 → A6 → A7 → A8 → A9 → R) (d1 : Decoder A1) (d2 : Decoder A2) (d3 : Decoder A3) (d4 : Decoder A4) (d5 : Decoder A5) (d6 : Decoder A6) (d7 : Decoder A7) (d8 : Decoder A8) (d9 : Decoder A9) : Decoder R := fun value => do
  let a1 ← d1 value
  let a2 ← d2 value
  let a3 ← d3 value
  let a4 ← d4 value
  let a5 ← d5 value
  let a6 ← d6 value
  let a7 ← d7 value
  let a8 ← d8 value
  let a9 ← d9 value
  .ok (func a1 a2 a3 a4 a5 a6 a7 a8 a9)

/-- Decode function of `Fn10Decoder` (src/decoders.rs, `define_map_decoder`, constructor `map10`). -/
def map10 (func : A1 → A2 → A3 → A4 → A5 → A6 → A7 → A8 → A9 → A10 → R) (d1 : Decoder A1) (d2 : Decoder A2) (d3 : Decoder A3) (d4 : Decoder A4) (d5 : Decoder A5) (d6 : Decoder A6) (d7 : Decoder A7) (d8 : Decoder A8) (d9 : Decoder A9) (d10 : Decoder A10) : Decoder R := fun value => do
  let a1 ← d1 value
  let a2 ← d2 value
  let a3 ← d3 value
  let a4 ← d4 value
  let a5 ← d5 value
  let a6 ← d6 value
  let a7 ← d7 value
  let a8 ← d8 value
  let a9 ← d9 value
  let a10 ← d10 value
  .ok (func a1 a2 a3 a4 a5 a6 a7 a8 a9 a10)

/-- Decode function of `Fn11Decoder` (src/decoders.rs, `define_map_decoder`, constructor `map11`). -/
def map11 (func : A1 → A2 → A3 → A4 → A5 → A6 → A7 → A8 → A9 → A10 → A11 → R) (d1 : Decoder A1) (d2 : Decoder A2) (d3 : Decoder A3) (d4 : Decoder A4) (d5 : Decoder A5) (d6 : Decoder A6) (d7 : Decoder A7) (d8 : Decoder A8) (d9 : Decoder A9) (d10 : Decoder A10) (d11 : Decoder A11) : Decoder R := fun value => do
  let a1 ← d1 value
  let a2 ← d2 value
  let a3 ← d3 value
  let a4 ← d4 value
  let a5 ← d5 value
  let a6 ← d6 value
  let a7 ← d7 value
  let a8 ← d8 value
  let a9 ← d9 value
  let a10 ← d10 value
  let a11 ← d11 value
  .ok (func a1 a2 a3 a4 a5 a6 a7 a8 a9 a10 a11)

/-- Decode function of `Fn12Decoder` (src/decoders.rs, `define_map_decoder`, constructor `map12`). -/
def map12 (func : A1 → A2 → A3 → A4 → A5 → A6 → A7 → A8 → A9 → A10 → A11 → A12 → R) (d1 : Decoder A1) (d2 : Decoder A2) (d3 : Decoder A3) (d4 : Decoder A4) (d5 : Decoder A5) (d6 : Decoder A6) (d7 : Decoder A7) (d8 : Decoder A8) (d9 : Decoder A9) (d10 : Decoder A10) (d11 : Decoder A11) (d12 : Decoder A12) : Decoder R := fun value => do
  let a1 ← d1 value
  let a2 ← d2 value
  let a3 ← d3 value
  let a4 ← d4 value
  let a5 ← d5 value
  let a6 ← d6 value
  let a7 ← d7 value
  let a8 ← d8 value
  let a9 ← d9 value
  let a10 ← d10 value
  let a11 ← d11 value
  let a12 ← d12 value
  .ok (func a1 a2 a3 a4 a5 a6 a7 a8 a9 a10 a11 a12)

/-- Decode function of `Fn13Decoder` (src/decoders.rs, `define_map_decoder`, constructor `map13`). -/
def map13 (func : A1 → A2 → A3 → A4 → A5 → A6 → A7 → A8 → A9 → A10 → A11 → A12 → A13 → R) (d1 : Decoder A1) (d2 : Decoder A2) (d3 : Decoder A3) (d4 : Decoder A4) (d5 : Decoder A5) (d6 : Decoder A6) (d7 : Decoder A7) (d8 : Decoder A8) (d9 : Decoder A9) (d10 : Decoder A10) (d11 : Decoder A11) (d12 : Decoder A12) (d13 : Decoder A13) : Decoder R := fun value => do
  let a1 ← d1 value
  let a2 ← d2 value
  let a3 ← d3 value
  let a4 ← d4 value
  let a5 ← d5 value
  let a6 ← d6 value
  let a7 ← d7 value
  let a8 ← d8 value
  let a9 ← d9 value
  let a10 ← d10 value
  let a11 ← d11 value
  let a12 ← d12 value
  let a13 ← d13 value
  .ok (func a1 a2 a3 a4 a5 a6 a7 a8 a9 a10 a11 a12 a13)

/-- Decode function of `Fn14Decoder` (src/decoders.rs, `define_map_decoder`, constructor `map14`). -/
def map14 (func : A1 → A2 → A3 → A4 → A5 → A6 → A7 → A8 → A9 → A10 → A11 → A12 → A13 → A14 → R) (d1 : Decoder A1) (d2 : Decoder A2) (d3 : Decoder A3) (d4 : Decoder A4) (d5 : Decoder A5) (d6 : Decoder A6) (d7 : Decoder A7) (d8 : Decoder A8) (d9 : Decoder A9) (d10 : Decoder A10) (d11 : Decoder A11) (d12 : Decoder A12) (d13 : Decoder A13) (d14 : Decoder A14) : Decoder R := fun value => do
  let a1 ← d1 value
  let a2 ← d2 value
  let a3 ← d3 value
  let a4 ← d4 value
  let a5 ← d5 value
  let a6 ← d6 value
  let a7 ← d7 value
  let a8 ← d8 value
  let a9 ← d9 value
  let a10 ← d10 value
  let a11 ← d11 value
  let a12 ← d12 value
  let a13 ← d13 value
  let a14 ← d14 value
  .ok (func a1 a2 a3 a4 a5 a6 a7 a8 a9 a10 a11 a12 a13 a14)

/-- Decode function of `Fn15Decoder` (src/decoders.rs, `define_map_decoder`, constructor `map15`). -/
def map15 (func : A1 → A2 → A3 → A4 → A5 → A6 → A7 → A8 → A9 → A10 → A11 → A12 → A13 → A14 → A15 → R) (d1 : Decoder A1) (d2 : Decoder A2) (d3 : Decoder A3) (d4 : Decoder A4) (d5 : Decoder A5) (d6 : Decoder A6) (d7 : Decoder A7) (d8 : Decoder A8) (d9 : Decoder A9) (d10 : Decoder A10) (d11 : Decoder A11) (d12 : Decoder A12) (d13 : Decoder A13) (d14 : Decoder A14) (d15 : Decoder A15) : Decoder R := fun value => do
  let a1 ← d1 value
  let a2 ← d2 value
  let a3 ← d3 value
  let a4 ← d4 value
  let a5 ← d5 value
  let a6 ← d6 value
  let a7 ← d7 value
  let a8 ← d8 value
  let a9 ← d9 value
  let a10 ← d10 value
  let a11 ← d11 value
  let a12 ← d12 value
  let a13 ← d13 value
  let a14 ← d14 value
  let a15 ← d15 value
  .ok (func a1 a2 a3 a4 a5 a6 a7 a8 a9 a10 a11 a12 a13 a14 a15)

/-- Decode function of `Fn16Decoder` (src/decoders.rs, `define_map_decoder`, constructor `map16`). -/
def map16 (func : A1 → A2 → A3 → A4 → A5 → A6 → A7 → A8 → A9 → A10 → A11 → A12 → A13 → A14 → A15 → A16 → R) (d1 : Decoder A1) (d2 : Decoder A2) (d3 : Decoder A3) (d4 : Decoder A4) (d5 : Decoder A5) (d6 : Decoder A6) (d7 : Decoder A7) (d8 : Decoder A8) (d9 : Decoder A9) (d10 : Decoder A10) (d11 : Decoder A11) (d12 : Decoder A12) (d13 : Decoder A13) (d14 : Decoder A14) (d15 : Decoder A15) (d16 : Decoder A16) : Decoder R := fun value => do
  let a1 ← d1 value
  let a2 ← d2 value
  let a3 ← d3 value
  let a4 ← d4 value
  let a5 ← d5 value
  let a6 ← d6 value
  let a7 ← d7 value
  let a8 ← d8 value
  let a9 ← d9 value
  let a10 ← d10 value
  let a11 ← d11 value
  let a12 ← d12 value
  let a13 ← d13 value
  let a14 ← d14 value
  let a15 ← d15 value
  let a16 ← d16 value
  .ok (func a1 a2 a3 a4 a5 a6 a7 a8 a9 a10 a11 a12 a13 a14 a15 a16)

/-- Decode function of `Fn17Decoder` (src/decoders.rs, `define_map_decoder`, constructor `map17`). -/
def map17 (func : A1 → A2 → A3 → A4 → A5 → A6 → A7 → A8 → A9 → A10 → A11 → A12 → A13 → A14 → A15 → A16 → A17 → R) (d1 : Decoder A1) (d2 : Decoder A2) (d3 : Decoder A3) (d4 : Decoder A4) (d5 : Decoder A5) (d6 : Decoder A6) (d7 : Decoder A7) (d8 : Decoder A8) (d9 : Decoder A9) (d10 : Decoder A10) (d11 : Decoder A11) (d12 : Decoder A12) (d13 : Decoder A13) (d14 : Decoder A14) (d15 : Decoder A15) (d16 : Decoder A16) (d17 : Decoder A17) : Decoder R := fun value => do
  let a1 ← d1 value
  let a2 ← d2 value
  let a3 ← d3 value
  let a4 ← d4 value
  let a5 ← d5 value
  let a6 ← d6 value
  let a7 ← d7 value
  let a8 ← d8 value
  let a9 ← d9 value
  let a10 ← d10 value
  let a11 ← d11 value
  let a12 ← d12 value
  let a13 ← d13 value
  let a14 ← d14 value
  let a15 ← d15 value
  let a16 ← d16 value
  let a17 ← d17 value
  .ok (func a1 a2 a3 a4 a5 a6 a7 a8 a9 a10 a11 a12 a13 a14 a15 a16 a17)

/-- Decode function of `Fn18Decoder` (src/decoders.rs, `define_map_decoder`, constructor `map18`). -/
def map18 (func : A1 → A2 → A3 → A4 → A5 → A6 → A7 → A8 → A9 → A10 → A11 → A12 → A13 → A14 → A15 → A16 → A17 → A18 → R) (d1 : Decoder A1) (d2 : Decoder A2) (d3 : Decoder A3) (d4 : Decoder A4) (d5 : Decoder A5) (d6 : Decoder A6) (d7 : Decoder A7) (d8 : Decoder A8) (d9 : Decoder A9) (d10 : Decoder A10) (d11 : Decoder A11) (d12 : Decoder A12) (d13 : Decoder A13) (d14 : Decoder A14) (d15 : Decoder A15) (d16 : Decoder A16) (d17 : Decoder A17) (d18 : Decoder A18) : Decoder R := fun value => do
  let a1 ← d1 value
  let a2 ← d2 value
  let a3 ← d3 value
  let a4 ← d4 value
  let a5 ← d5 value
  let a6 ← d6 value
  let a7 ← d7 value
  let a8 ← d8 value
  let a9 ← d9 value
  let a10 ← d10 value
  let a11 ← d11 value
  let a12 ← d12 value
  let a13 ← d13 value
  let a14 ← d14 value
  let a15 ← d15 value
  let a16 ← d16 value
  let a17 ← d17 value
  let a18 ← d18 value
  .ok (func a1 a2 a3 a4 a5 a6 a7 a8 a9 a10 a11 a12 a13 a14 a15 a16 a17 a18)

/-- Decode function of `Fn19Decoder` (src/decoders.rs, `define_map_decoder`, constructor `map19`). -/
def map19 (func : A1 → A2 → A3 → A4 → A5 → A6 → A7 → A8 → A9 → A10 → A11 → A12 → A13 → A14 → A15 → A16 → A17 → A18 → A19 → R) (d1 : Decoder A1) (d2 : Decoder A2) (d3 : Decoder A3) (d4 : Decoder A4) (d5 : Decoder A5) (d6 : Decoder A6) (d7 : Decoder A7) (d8 : Decoder A8) (d9 : Decoder A9) (d10 : Decoder A10) (d11 : Decoder A11) (d12 : Decoder A12) (d13 : Decoder A13) (d14 : Decoder A14) (d15 : Decoder A15) (d16 : Decoder A16) (d17 : Decoder A17) (d18 : Decoder A18) (d19 : Decoder A19) : Decoder R := fun value => do
  let a1 ← d1 value
  let a2 ← d2 value
  let a3 ← d3 value
  let a4 ← d4 value
  let a5 ← d5 value
  let a6 ← d6 value
  let a7 ← d7 value
  let a8 ← d8 value
  let a9 ← d9 value
  let a10 ← d10 value
  let a11 ← d11 value
  let a12 ← d12 value
  let a13 ← d13 value
  let a14 ← d14 value
  let a15 ← d15 value
  let a16 ← d16 value
  let a17 ← d17 value
  let a18 ← d18 value
  let a19 ← d19 value
  .ok (func a1 a2 a3 a4 a5 a6 a7 a8 a9 a10 a11 a12 a13 a14 a15 a16 a17 a18 a19)

/-- Decode function of `Fn20Decoder` (src/decoders.rs, `define_map_decoder`, constructor `map20`). -/
def map20 (func : A1 → A2 → A3 → A4 → A5 → A6 → A7 → A8 → A9 → A10 → A11 → A12 → A13 → A14 → A15 → A16 → A17 → A18 → A19 → A20 → R) (d1 : Decoder A1) (d2 : Decoder A2) (d3 : Decoder A3) (d4 : Decoder A4) (d5 : Decoder A5) (d6 : Decoder A6) (d7 : Decoder A7) (d8 : Decoder A8) (d9 : Decoder A9) (d10 : Decoder A10) (d11 : Decoder A11) (d12 : Decoder A12) (d13 : Decoder A13) (d14 : Decoder A14) (d15 : Decoder A15) (d16 : Decoder A16) (d17 : Decoder A17) (d18 : Decoder A18) (d19 : Decoder A19) (d20 : Decoder A20) : Decoder R := fun value => do
  let a1 ← d1 value
  let a2 ← d2 value
  let a3 ← d3 value
  let a4 ← d4 value
  let a5 ← d5 value
  let a6 ← d6 value
  let a7 ← d7 value
  let a8 ← d8 value
  let a9 ← d9 value
  let a10 ← d10 value
  let a11 ← d11 value
  let a12 ← d12 value
  let a13 ← d13 value
  let a14 ← d14 value
  let a15 ← d15 value
  let a16 ← d16 value
  let a17 ← d17 value
  let a18 ← d18 value
  let a19 ← d19 value
  let a20 ← d20 value
  .ok (func a1 a2 a3 a4 a5 a6 a7 a8 a9 a10 a11 a12 a13 a14 a15 a16 a17 a18 a19 a20)

/-- Modelled from the spec: `and_then(func, d)` is re-exported by src/lib.rs
and exercised by its test `test_and_then`, but its definition is among the
code of the repository missing from src/. Spec section 4.5: decode `d` against
the value; on success invoke `func` with the decoded value, which selects the
decoder producing the final result from the same value (equivalently, a
resulting value or an explicit failure); on `d`'s failure, short-circuit
without invoking `func`. -/
def andThen (func : A1 → Decoder R) (d : Decoder A1) : Decoder R := fun value =>
  match d value with
  | .ok a => func a value
  | .error e => .error e

/-- Modelled from the spec: `succeed(value)` is re-exported by src/lib.rs but
its definition is among the code of the repository missing from src/. Spec
section 4.5: ignores the input entirely, always returns the given value. -/
def succeed (x : R) : Decoder R := fun _ => .ok x

/-- Modelled from the spec: `fail(message)` is re-exported by src/lib.rs but
its definition is among the code of the repository missing from src/. Spec
section 4.5: ignores the input entirely, always returns `Other(message)`. -/
def fail (message : String) : Decoder R := fun _ => .error (.Other message)

/-- Transform used by the repository test `test_and_then` (src/lib.rs): maps
the text "ok" to `succeed(Some(s))` and any other text to `fail("Go Away")`. -/
def andThenTestFn (s : String) : Decoder (Option String) :=
  if s == "ok" then succeed (some s) else fail "Go Away"

/-- Was the `Result` an `IntegerOverflow` error? -/
def isOverflowError : Except DecodeError α → Bool
  | .error (.IntegerOverflow _ _) => true
  | _ => false

/-- Was the `Result` an `IncorrectType` error? -/
def isIncorrectTypeError : Except DecodeError α → Bool
  | .error (.IncorrectType _ _) => true
  | _ => false


/-! ## Claim theorems -/

/-- Helper: the empty array decodes to the empty collection. -/
theorem list_decode_nil (inner : Decoder α) : list inner (.array []) = .ok [] := rfl

/-- Helper: on a nonempty array the head is decoded first; its error is the
whole result, and on success the tail's decode supplies the rest in order. -/
theorem list_decode_cons (inner : Decoder α) (item : Value) (rest : List Value) :
    list inner (.array (item :: rest)) =
      match inner item with
      | .error e => .error e
      | .ok a => (list inner (.array rest)).map (fun tail => a :: tail) := by
  simp only [list]
  rw [List.mapM_cons]
  cases h : inner item with
  | error e => rfl
  | ok a =>
    show (List.mapM inner rest).bind _ = _
    cases h2 : List.mapM inner rest <;> rfl

/-- C1: refuted by the code. `IntDecoder::decode` and `UIntDecoder::decode`
(src/decoders.rs) perform no checked narrowing at all: the 64-bit reading is
converted with the target's infallible `From` conversion (whose bound admits
no smaller fixed-width target), so `Number(512)` decodes to `Ok(512)` and no
decode ever produces `IntegerOverflow` — while the repository's own test
`decoding_integers` (src/lib.rs) expects
`integer::<i8>().decode(Number(512)) == Err(IntegerOverflow("512", "i8"))`. -/
theorem integer_decoder_never_overflows :
    integer (.number (.posInt 512)) = .ok 512 ∧
    (∀ value : Value, isOverflowError (integer value) = false) ∧
    (∀ value : Value, isOverflowError (unsignedInteger value) = false) := by
  refine ⟨rfl, ?_, ?_⟩
  · intro value
    cases value with
    | number n =>
      cases n with
      | posInt m =>
        simp only [integer, JNumber.asI64]
        split <;> rfl
      | negInt m => rfl
      | float t => rfl
    | null => rfl
    | bool b => rfl
    | str t => rfl
    | array items => rfl
    | obj fields => rfl
  · intro value
    cases value with
    | number n => cases n <;> rfl
    | null => rfl
    | bool b => rfl
    | str t => rfl
    | array items => rfl
    | obj fields => rfl

/-- C2: for every arity N in 1..20, `mapN(func, d1, ..., dN).decode(v)` runs
each child decoder against the same input value `v` in left-to-right declared
order; the first failing decoder's error is the whole result (the later
decoders contribute nothing to it), and when all N succeed the result is `Ok`
of `func` applied once to the N decoded values in declared order. -/
theorem mapN_first_failure_wins :
    (∀ (A1 R : Type) (func : A1 → R) (d1 : Decoder A1) (value : Value),
      map func d1 value =
        match d1 value with
        | .error e => .error e
        | .ok a1 => .ok (func a1)) ∧
    (∀ (A1 A2 R : Type) (func : A1 → A2 → R) (d1 : Decoder A1) (d2 : Decoder A2) (value : Value),
      map2 func d1 d2 value =
        match d1 value with
        | .error e => .error e
        | .ok a1 =>
          match d2 value with
          | .error e => .error e
          | .ok a2 => .ok (func a1 a2)) ∧
    (∀ (A1 A2 A3 R : Type) (func : A1 → A2 → A3 → R) (d1 : Decoder A1) (d2 : Decoder A2) (d3 : Decoder A3) (value : Value),
      map3 func d1 d2 d3 value =
        match d1 value with
        | .error e => .error e
        | .ok a1 =>
          match d2 value with
          | .error e => .error e
          | .ok a2 =>
            match d3 value with
            | .error e => .error e
            | .ok a3 => .ok (func a1 a2 a3)) ∧
    (∀ (A1 A2 A3 A4 R : Type) (func : A1 → A2 → A3 → A4 → R) (d1 : Decoder A1) (d2 : Decoder A2) (d3 : Decoder A3) (d4 : Decoder A4) (value : Value),
      map4 func d1 d2 d3 d4 value =
        match d1 value with
        | .error e => .error e
        | .ok a1 =>
          match d2 value with
          | .error e => .error e
          | .ok a2 =>
            match d3 value with
            | .error e => .error e
            | .ok a3 =>
              match d4 value with
              | .error e => .error e
              | .ok a4 => .ok (func a1 a2 a3 a4)) ∧
    (∀ (A1 A2 A3 A4 A5 R : Type) (func : A1 → A2 → A3 → A4 → A5 → R) (d1 : Decoder A1) (d2 : Decoder A2) (d3 : Decoder A3) (d4 : Decoder A4) (d5 : Decoder A5) (value : Value),
      map5 func d1 d2 d3 d4 d5 value =
        match d1 value with
        | .error e => .error e
        | .ok a1 =>
          match d2 value with
          | .error e => .error e
          | .ok a2 =>
            match d3 value with
            | .error e => .error e
            | .ok a3 =>
              match d4 value with
              | .error e => .error e
              | .ok a4 =>
                match d5 value with
                | .error e => .error e
                | .ok a5 => .ok (func a1 a2 a3 a4 a5)) ∧
    (∀ (A1 A2 A3 A4 A5 A6 R : Type) (func : A1 → A2 → A3 → A4 → A5 → A6 → R) (d1 : Decoder A1) (d2 : Decoder A2) (d3 : Decoder A3) (d4 : Decoder A4) (d5 : Decoder A5) (d6 : Decoder A6) (value : Value),
      map6 func d1 d2 d3 d4 d5 d6 value =
        match d1 value with
        | .error e => .error e
        | .ok a1 =>
          match d2 value with
          | .error e => .error e
          | .ok a2 =>
            match d3 value with
            | .error e => .error e
            | .ok a3 =>
              match d4 value with
              | .error e => .error e
              | .ok a4 =>
                match d5 value with
                | .error e => .error e
                | .ok a5 =>
                  match d6 value with
                  | .error e => .error e
                  | .ok a6 => .ok (func a1 a2 a3 a4 a5 a6)) ∧
    (∀ (A1 A2 A3 A4 A5 A6 A7 R : Type) (func : A1 → A2 → A3 → A4 → A5 → A6 → A7 → R) (d1 : Decoder A1) (d2 : Decoder A2) (d3 : Decoder A3) (d4 : Decoder A4) (d5 : Decoder A5) (d6 : Decoder A6) (d7 : Decoder A7) (value : Value),
      map7 func d1 d2 d3 d4 d5 d6 d7 value =
        match d1 value with
        | .error e => .error e
        | .ok a1 =>
          match d2 value with
          | .error e => .error e
          | .ok a2 =>
            match d3 value with
            | .error e => .error e
            | .ok a3 =>
              match d4 value with
              | .error e => .error e
              | .ok a4 =>
                match d5 value with
                | .error e => .error e
                | .ok a5 =>
                  match d6 value with
                  | .error e => .error e
                  | .ok a6 =>
                    match d7 value with
                    | .error e => .error e
                    | .ok a7 => .ok (func a1 a2 a3 a4 a5 a6 a7)) ∧
    (∀ (A1 A2 A3 A4 A5 A6 A7 A8 R : Type) (func : A1 → A2 → A3 → A4 → A5 → A6 → A7 → A8 → R) (d1 : Decoder A1) (d2 : Decoder A2) (d3 : Decoder A3) (d4 : Decoder A4) (d5 : Decoder A5) (d6 : Decoder A6) (d7 : Decoder A7) (d8 : Decoder A8) (value : Value),
      map8 func d1 d2 d3 d4 d5 d6 d7 d8 value =
        match d1 value with
        | .error e => .error e
        | .ok a1 =>
          match d2 value with
          | .error e => .error e
          | .ok a2 =>
            match d3 value with
            | .error e => .error e
            | .ok a3 =>
              match d4 value with
              | .error e => .error e
              | .ok a4 =>
                match d5 value with
                | .error e => .error e
                | .ok a5 =>
                  match d6 value with
                  | .error e => .error e
                  | .ok a6 =>
                    match d7 value with
                    | .error e => .error e
                    | .ok a7 =>
                      match d8 value with
                      | .error e => .error e
                      | .ok a8 => .ok (func a1 a2 a3 a4 a5 a6 a7 a8)) ∧
    (∀ (A1 A2 A3 A4 A5 A6 A7 A8 A9 R : Type) (func : A1 → A2 → A3 → A4 → A5 → A6 → A7 → A8 → A9 → R) (d1 : Decoder A1) (d2 : Decoder A2) (d3 : Decoder A3) (d4 : Decoder A4) (d5 : Decoder A5) (d6 : Decoder A6) (d7 : Decoder A7) (d8 : Decoder A8) (d9 : Decoder A9) (value : Value),
      map9 func d1 d2 d3 d4 d5 d6 d7 d8 d9 value =
        match d1 value with
        | .error e => .error e
        | .ok a1 =>
          match d2 value with
          | .error e => .error e
          | .ok a2 =>
            match d3 value with
            | .error e => .error e
            | .ok a3 =>
              match d4 value with
              | .error e => .error e
              | .ok a4 =>
                match d5 value with
                | .error e => .error e
                | .ok a5 =>
                  match d6 value with
                  | .error e => .error e
                  | .ok a6 =>
                    match d7 value with
                    | .error e => .error e
                    | .ok a7 =>
                      match d8 value with
                      | .error e => .error e
                      | .ok a8 =>
                        match d9 value with
                        | .error e => .error e
                        | .ok a9 => .ok (func a1 a2 a3 a4 a5 a6 a7 a8 a9)) ∧
    (∀ (A1 A2 A3 A4 A5 A6 A7 A8 A9 A10 R : Type) (func : A1 → A2 → A3 → A4 → A5 → A6 → A7 → A8 → A9 → A10 → R) (d1 : Decoder A1) (d2 : Decoder A2) (d3 : Decoder A3) (d4 : Decoder A4) (d5 : Decoder A5) (d6 : Decoder A6) (d7 : Decoder A7) (d8 : Decoder A8) (d9 : Decoder A9) (d10 : Decoder A10) (value : Value),
      map10 func d1 d2 d3 d4 d5 d6 d7 d8 d9 d10 value =
        match d1 value with
        | .error e => .error e
        | .ok a1 =>
          match d2 value with
          | .error e => .error e
          | .ok a2 =>
            match d3 value with
            | .error e => .error e
            | .ok a3 =>
              match d4 value with
              | .error e => .error e
              | .ok a4 =>
                match d5 value with
                | .error e => .error e
                | .ok a5 =>
                  match d6 value with
                  | .error e => .error e
                  | .ok a6 =>
                    match d7 value with
                    | .error e => .error e
                    | .ok a7 =>
                      match d8 value with
                      | .error e => .error e
                      | .ok a8 =>
                        match d9 value with
                        | .error e => .error e
                        | .ok a9 =>
                          match d10 value with
                          | .error e => .error e
                          | .ok a10 => .ok (func a1 a2 a3 a4 a5 a6 a7 a8 a9 a10)) ∧
    (∀ (A1 A2 A3 A4 A5 A6 A7 A8 A9 A10 A11 R : Type) (func : A1 → A2 → A3 → A4 → A5 → A6 → A7 → A8 → A9 → A10 → A11 → R) (d1 : Decoder A1) (d2 : Decoder A2) (d3 : Decoder A3) (d4 : Decoder A4) (d5 : Decoder A5) (d6 : Decoder A6) (d7 : Decoder A7) (d8 : Decoder A8) (d9 : Decoder A9) (d10 : Decoder A10) (d11 : Decoder A11) (value : Value),
      map11 func d1 d2 d3 d4 d5 d6 d7 d8 d9 d10 d11 value =
        match d1 value with
        | .error e => .error e
        | .ok a1 =>
          match d2 value with
          | .error e => .error e
          | .ok a2 =>
            match d3 value with
            | .error e => .error e
            | .ok a3 =>
              match d4 value with
              | .error e => .error e
              | .ok a4 =>
                match d5 value with
                | .error e => .error e
                | .ok a5 =>
                  match d6 value with
                  | .error e => .error e
                  | .ok a6 =>
                    match d7 value with
                    | .error e => .error e
                    | .ok a7 =>
                      match d8 value with
                      | .error e => .error e
                      | .ok a8 =>
                        match d9 value with
                        | .error e => .error e
                        | .ok a9 =>
                          match d10 value with
                          | .error e => .error e
                          | .ok a10 =>
                            match d11 value with
                            | .error e => .error e
                            | .ok a11 => .ok (func a1 a2 a3 a4 a5 a6 a7 a8 a9 a10 a11)) ∧
    (∀ (A1 A2 A3 A4 A5 A6 A7 A8 A9 A10 A11 A12 R : Type) (func : A1 → A2 → A3 → A4 → A5 → A6 → A7 → A8 → A9 → A10 → A11 → A12 → R) (d1 : Decoder A1) (d2 : Decoder A2) (d3 : Decoder A3) (d4 : Decoder A4) (d5 : Decoder A5) (d6 : Decoder A6) (d7 : Decoder A7) (d8 : Decoder A8) (d9 : Decoder A9) (d10 : Decoder A10) (d11 : Decoder A11) (d12 : Decoder A12) (value : Value),
      map12 func d1 d2 d3 d4 d5 d6 d7 d8 d9 d10 d11 d12 value =
        match d1 value with
        | .error e => .error e
        | .ok a1 =>
          match d2 value with
          | .error e => .error e
          | .ok a2 =>
            match d3 value with
            | .error e => .error e
            | .ok a3 =>
              match d4 value with
              | .error e => .error e
              | .ok a4 =>
                match d5 value with
                | .error e => .error e
                | .ok a5 =>
                  match d6 value with
                  | .error e => .error e
                  | .ok a6 =>
                    match d7 value with
                    | .error e => .error e
                    | .ok a7 =>
                      match d8 value with
                      | .error e => .error e
                      | .ok a8 =>
                        match d9 value with
                        | .error e => .error e
                        | .ok a9 =>
                          match d10 value with
                          | .error e => .error e
                          | .ok a10 =>
                            match d11 value with
                            | .error e => .error e
                            | .ok a11 =>
                              match d12 value with
                              | .error e => .error e
                              | .ok a12 => .ok (func a1 a2 a3 a4 a5 a6 a7 a8 a9 a10 a11 a12)) ∧
    (∀ (A1 A2 A3 A4 A5 A6 A7 A8 A9 A10 A11 A12 A13 R : Type) (func : A1 → A2 → A3 → A4 → A5 → A6 → A7 → A8 → A9 → A10 → A11 → A12 → A13 → R) (d1 : Decoder A1) (d2 : Decoder A2) (d3 : Decoder A3) (d4 : Decoder A4) (d5 : Decoder A5) (d6 : Decoder A6) (d7 : Decoder A7) (d8 : Decoder A8) (d9 : Decoder A9) (d10 : Decoder A10) (d11 : Decoder A11) (d12 : Decoder A12) (d13 : Decoder A13) (value : Value),
      map13 func d1 d2 d3 d4 d5 d6 d7 d8 d9 d10 d11 d12 d13 value =
        match d1 value with
        | .error e => .error e
        | .ok a1 =>
          match d2 value with
          | .error e => .error e
          | .ok a2 =>
            match d3 value with
            | .error e => .error e
            | .ok a3 =>
              match d4 value with
              | .error e => .error e
              | .ok a4 =>
                match d5 value with
                | .error e => .error e
                | .ok a5 =>
                  match d6 value with
                  | .error e => .error e
                  | .ok a6 =>
                    match d7 value with
                    | .error e => .error e
                    | .ok a7 =>
                      match d8 value with
                      | .error e => .error e
                      | .ok a8 =>
                        match d9 value with
                        | .error e => .error e
                        | .ok a9 =>
                          match d10 value with
                          | .error e => .error e
                          | .ok a10 =>
                            match d11 value with
                            | .error e => .error e
                            | .ok a11 =>
                              match d12 value with
                              | .error e => .error e
                              | .ok a12 =>
                                match d13 value with
                                | .error e => .error e
                                | .ok a13 => .ok (func a1 a2 a3 a4 a5 a6 a7 a8 a9 a10 a11 a12 a13)) ∧
    (∀ (A1 A2 A3 A4 A5 A6 A7 A8 A9 A10 A11 A12 A13 A14 R : Type) (func : A1 → A2 → A3 → A4 → A5 → A6 → A7 → A8 → A9 → A10 → A11 → A12 → A13 → A14 → R) (d1 : Decoder A1) (d2 : Decoder A2) (d3 : Decoder A3) (d4 : Decoder A4) (d5 : Decoder A5) (d6 : Decoder A6) (d7 : Decoder A7) (d8 : Decoder A8) (d9 : Decoder A9) (d10 : Decoder A10) (d11 : Decoder A11) (d12 : Decoder A12) (d13 : Decoder A13) (d14 : Decoder A14) (value : Value),
      map14 func d1 d2 d3 d4 d5 d6 d7 d8 d9 d10 d11 d12 d13 d14 value =
        match d1 value with
        | .error e => .error e
        | .ok a1 =>
          match d2 value with
          | .error e => .error e
          | .ok a2 =>
            match d3 value with
            | .error e => .error e
            | .ok a3 =>
              match d4 value with
              | .error e => .error e
              | .ok a4 =>
                match d5 value with
                | .error e => .error e
                | .ok a5 =>
                  match d6 value with
                  | .error e => .error e
                  | .ok a6 =>
                    match d7 value with
                    | .error e => .error e
                    | .ok a7 =>
                      match d8 value with
                      | .error e => .error e
                      | .ok a8 =>
                        match d9 value with
                        | .error e => .error e
                        | .ok a9 =>
                          match d10 value with
                          | .error e => .error e
                          | .ok a10 =>
                            match d11 value with
                            | .error e => .error e
                            | .ok a11 =>
                              match d12 value with
                              | .error e => .error e
                              | .ok a12 =>
                                match d13 value with
                                | .error e => .error e
                                | .ok a13 =>
                                  match d14 value with
                                  | .error e => .error e
                                  | .ok a14 => .ok (func a1 a2 a3 a4 a5 a6 a7 a8 a9 a10 a11 a12 a13 a14)) ∧
    (∀ (A1 A2 A3 A4 A5 A6 A7 A8 A9 A10 A11 A12 A13 A14 A15 R : Type) (func : A1 → A2 → A3 → A4 → A5 → A6 → A7 → A8 → A9 → A10 → A11 → A12 → A13 → A14 → A15 → R) (d1 : Decoder A1) (d2 : Decoder A2) (d3 : Decoder A3) (d4 : Decoder A4) (d5 : Decoder A5) (d6 : Decoder A6) (d7 : Decoder A7) (d8 : Decoder A8) (d9 : Decoder A9) (d10 : Decoder A10) (d11 : Decoder A11) (d12 : Decoder A12) (d13 : Decoder A13) (d14 : Decoder A14) (d15 : Decoder A15) (value : Value),
      map15 func d1 d2 d3 d4 d5 d6 d7 d8 d9 d10 d11 d12 d13 d14 d15 value =
        match d1 value with
        | .error e => .error e
        | .ok a1 =>
          match d2 value with
          | .error e => .error e
          | .ok a2 =>
            match d3 value with
            | .error e => .error e
            | .ok a3 =>
              match d4 value with
              | .error e => .error e
              | .ok a4 =>
                match d5 value with
                | .error e => .error e
                | .ok a5 =>
                  match d6 value with
                  | .error e => .error e
                  | .ok a6 =>
                    match d7 value with
                    | .error e => .error e
                    | .ok a7 =>
                      match d8 value with
                      | .error e => .error e
                      | .ok a8 =>
                        match d9 value with
                        | .error e => .error e
                        | .ok a9 =>
                          match d10 value with
                          | .error e => .error e
                          | .ok a10 =>
                            match d11 value with
                            | .error e => .error e
                            | .ok a11 =>
                              match d12 value with
                              | .error e => .error e
                              | .ok a12 =>
                                match d13 value with
                                | .error e => .error e
                                | .ok a13 =>
                                  match d14 value with
                                  | .error e => .error e
                                  | .ok a14 =>
                                    match d15 value with
                                    | .error e => .error e
                                    | .ok a15 => .ok (func a1 a2 a3 a4 a5 a6 a7 a8 a9 a10 a11 a12 a13 a14 a15)) ∧
    (∀ (A1 A2 A3 A4 A5 A6 A7 A8 A9 A10 A11 A12 A13 A14 A15 A16 R : Type) (func : A1 → A2 → A3 → A4 → A5 → A6 → A7 → A8 → A9 → A10 → A11 → A12 → A13 → A14 → A15 → A16 → R) (d1 : Decoder A1) (d2 : Decoder A2) (d3 : Decoder A3) (d4 : Decoder A4) (d5 : Decoder A5) (d6 : Decoder A6) (d7 : Decoder A7) (d8 : Decoder A8) (d9 : Decoder A9) (d10 : Decoder A10) (d11 : Decoder A11) (d12 : Decoder A12) (d13 : Decoder A13) (d14 : Decoder A14) (d15 : Decoder A15) (d16 : Decoder A16) (value : Value),
      map16 func d1 d2 d3 d4 d5 d6 d7 d8 d9 d10 d11 d12 d13 d14 d15 d16 value =
        match d1 value with
        | .error e => .error e
        | .ok a1 =>
          match d2 value with
          | .error e => .error e
          | .ok a2 =>
            match d3 value with
            | .error e => .error e
            | .ok a3 =>
              match d4 value with
              | .error e => .error e
              | .ok a4 =>
                match d5 value with
                | .error e => .error e
                | .ok a5 =>
                  match d6 value with
                  | .error e => .error e
                  | .ok a6 =>
                    match d7 value with
                    | .error e => .error e
                    | .ok a7 =>
                      match d8 value with
                      | .error e => .error e
                      | .ok a8 =>
                        match d9 value with
                        | .error e => .error e
                        | .ok a9 =>
                          match d10 value with
                          | .error e => .error e
                          | .ok a10 =>
                            match d11 value with
                            | .error e => .error e
                            | .ok a11 =>
                              match d12 value with
                              | .error e => .error e
                              | .ok a12 =>
                                match d13 value with
                                | .error e => .error e
                                | .ok a13 =>
                                  match d14 value with
                                  | .error e => .error e
                                  | .ok a14 =>
                                    match d15 value with
                                    | .error e => .error e
                                    | .ok a15 =>
                                      match d16 value with
                                      | .error e => .error e
                                      | .ok a16 => .ok (func a1 a2 a3 a4 a5 a6 a7 a8 a9 a10 a11 a12 a13 a14 a15 a16)) ∧
    (∀ (A1 A2 A3 A4 A5 A6 A7 A8 A9 A10 A11 A12 A13 A14 A15 A16 A17 R : Type) (func : A1 → A2 → A3 → A4 → A5 → A6 → A7 → A8 → A9 → A10 → A11 → A12 → A13 → A14 → A15 → A16 → A17 → R) (d1 : Decoder A1) (d2 : Decoder A2) (d3 : Decoder A3) (d4 : Decoder A4) (d5 : Decoder A5) (d6 : Decoder A6) (d7 : Decoder A7) (d8 : Decoder A8) (d9 : Decoder A9) (d10 : Decoder A10) (d11 : Decoder A11) (d12 : Decoder A12) (d13 : Decoder A13) (d14 : Decoder A14) (d15 : Decoder A15) (d16 : Decoder A16) (d17 : Decoder A17) (value : Value),
      map17 func d1 d2 d3 d4 d5 d6 d7 d8 d9 d10 d11 d12 d13 d14 d15 d16 d17 value =
        match d1 value with
        | .error e => .error e
        | .ok a1 =>
          match d2 value with
          | .error e => .error e
          | .ok a2 =>
            match d3 value with
            | .error e => .error e
            | .ok a3 =>
              match d4 value with
              | .error e => .error e
              | .ok a4 =>
                match d5 value with
                | .error e => .error e
                | .ok a5 =>
                  match d6 value with
                  | .error e => .error e
                  | .ok a6 =>
                    match d7 value with
                    | .error e => .error e
                    | .ok a7 =>
                      match d8 value with
                      | .error e => .error e
                      | .ok a8 =>
                        match d9 value with
                        | .error e => .error e
                        | .ok a9 =>
                          match d10 value with
                          | .error e => .error e
                          | .ok a10 =>
                            match d11 value with
                            | .error e => .error e
                            | .ok a11 =>
                              match d12 value with
                              | .error e => .error e
                              | .ok a12 =>
                                match d13 value with
                                | .error e => .error e
                                | .ok a13 =>
                                  match d14 value with
                                  | .error e => .error e
                                  | .ok a14 =>
                                    match d15 value with
                                    | .error e => .error e
                                    | .ok a15 =>
                                      match d16 value with
                                      | .error e => .error e
                                      | .ok a16 =>
                                        match d17 value with
                                        | .error e => .error e
                                        | .ok a17 => .ok (func a1 a2 a3 a4 a5 a6 a7 a8 a9 a10 a11 a12 a13 a14 a15 a16 a17)) ∧
    (∀ (A1 A2 A3 A4 A5 A6 A7 A8 A9 A10 A11 A12 A13 A14 A15 A16 A17 A18 R : Type) (func : A1 → A2 → A3 → A4 → A5 → A6 → A7 → A8 → A9 → A10 → A11 → A12 → A13 → A14 → A15 → A16 → A17 → A18 → R) (d1 : Decoder A1) (d2 : Decoder A2) (d3 : Decoder A3) (d4 : Decoder A4) (d5 : Decoder A5) (d6 : Decoder A6) (d7 : Decoder A7) (d8 : Decoder A8) (d9 : Decoder A9) (d10 : Decoder A10) (d11 : Decoder A11) (d12 : Decoder A12) (d13 : Decoder A13) (d14 : Decoder A14) (d15 : Decoder A15) (d16 : Decoder A16) (d17 : Decoder A17) (d18 : Decoder A18) (value : Value),
      map18 func d1 d2 d3 d4 d5 d6 d7 d8 d9 d10 d11 d12 d13 d14 d15 d16 d17 d18 value =
        match d1 value with
        | .error e => .error e
        | .ok a1 =>
          match d2 value with
          | .error e => .error e
          | .ok a2 =>
            match d3 value with
            | .error e => .error e
            | .ok a3 =>
              match d4 value with
              | .error e => .error e
              | .ok a4 =>
                match d5 value with
                | .error e => .error e
                | .ok a5 =>
                  match d6 value with
                  | .error e => .error e
                  | .ok a6 =>
                    match d7 value with
                    | .error e => .error e
                    | .ok a7 =>
                      match d8 value with
                      | .error e => .error e
                      | .ok a8 =>
                        match d9 value with
                        | .error e => .error e
                        | .ok a9 =>
                          match d10 value with
                          | .error e => .error e
                          | .ok a10 =>
                            match d11 value with
                            | .error e => .error e
                            | .ok a11 =>
                              match d12 value with
                              | .error e => .error e
                              | .ok a12 =>
                                match d13 value with
                                | .error e => .error e
                                | .ok a13 =>
                                  match d14 value with
                                  | .error e => .error e
                                  | .ok a14 =>
                                    match d15 value with
                                    | .error e => .error e
                                    | .ok a15 =>
                                      match d16 value with
                                      | .error e => .error e
                                      | .ok a16 =>
                                        match d17 value with
                                        | .error e => .error e
                                        | .ok a17 =>
                                          match d18 value with
                                          | .error e => .error e
                                          | .ok a18 => .ok (func a1 a2 a3 a4 a5 a6 a7 a8 a9 a10 a11 a12 a13 a14 a15 a16 a17 a18)) ∧
    (∀ (A1 A2 A3 A4 A5 A6 A7 A8 A9 A10 A11 A12 A13 A14 A15 A16 A17 A18 A19 R : Type) (func : A1 → A2 → A3 → A4 → A5 → A6 → A7 → A8 → A9 → A10 → A11 → A12 → A13 → A14 → A15 → A16 → A17 → A18 → A19 → R) (d1 : Decoder A1) (d2 : Decoder A2) (d3 : Decoder A3) (d4 : Decoder A4) (d5 : Decoder A5) (d6 : Decoder A6) (d7 : Decoder A7) (d8 : Decoder A8) (d9 : Decoder A9) (d10 : Decoder A10) (d11 : Decoder A11) (d12 : Decoder A12) (d13 : Decoder A13) (d14 : Decoder A14) (d15 : Decoder A15) (d16 : Decoder A16) (d17 : Decoder A17) (d18 : Decoder A18) (d19 : Decoder A19) (value : Value),
      map19 func d1 d2 d3 d4 d5 d6 d7 d8 d9 d10 d11 d12 d13 d14 d15 d16 d17 d18 d19 value =
        match d1 value with
        | .error e => .error e
        | .ok a1 =>
          match d2 value with
          | .error e => .error e
          | .ok a2 =>
            match d3 value with
            | .error e => .error e
            | .ok a3 =>
              match d4 value with
              | .error e => .error e
              | .ok a4 =>
                match d5 value with
                | .error e => .error e
                | .ok a5 =>
                  match d6 value with
                  | .error e => .error e
                  | .ok a6 =>
                    match d7 value with
                    | .error e => .error e
                    | .ok a7 =>
                      match d8 value with
                      | .error e => .error e
                      | .ok a8 =>
                        match d9 value with
                        | .error e => .error e
                        | .ok a9 =>
                          match d10 value with
                          | .error e => .error e
                          | .ok a10 =>
                            match d11 value with
                            | .error e => .error e
                            | .ok a11 =>
                              match d12 value with
                              | .error e => .error e
                              | .ok a12 =>
                                match d13 value with
                                | .error e => .error e
                                | .ok a13 =>
                                  match d14 value with
                                  | .error e => .error e
                                  | .ok a14 =>
                                    match d15 value with
                                    | .error e => .error e
                                    | .ok a15 =>
                                      match d16 value with
                                      | .error e => .error e
                                      | .ok a16 =>
                                        match d17 value with
                                        | .error e => .error e
                                        | .ok a17 =>
                                          match d18 value with
                                          | .error e => .error e
                                          | .ok a18 =>
                                            match d19 value with
                                            | .error e => .error e
                                            | .ok a19 => .ok (func a1 a2 a3 a4 a5 a6 a7 a8 a9 a10 a11 a12 a13 a14 a15 a16 a17 a18 a19)) ∧
    (∀ (A1 A2 A3 A4 A5 A6 A7 A8 A9 A10 A11 A12 A13 A14 A15 A16 A17 A18 A19 A20 R : Type) (func : A1 → A2 → A3 → A4 → A5 → A6 → A7 → A8 → A9 → A10 → A11 → A12 → A13 → A14 → A15 → A16 → A17 → A18 → A19 → A20 → R) (d1 : Decoder A1) (d2 : Decoder A2) (d3 : Decoder A3) (d4 : Decoder A4) (d5 : Decoder A5) (d6 : Decoder A6) (d7 : Decoder A7) (d8 : Decoder A8) (d9 : Decoder A9) (d10 : Decoder A10) (d11 : Decoder A11) (d12 : Decoder A12) (d13 : Decoder A13) (d14 : Decoder A14) (d15 : Decoder A15) (d16 : Decoder A16) (d17 : Decoder A17) (d18 : Decoder A18) (d19 : Decoder A19) (d20 : Decoder A20) (value : Value),
      map20 func d1 d2 d3 d4 d5 d6 d7 d8 d9 d10 d11 d12 d13 d14 d15 d16 d17 d18 d19 d20 value =
        match d1 value with
        | .error e => .error e
        | .ok a1 =>
          match d2 value with
          | .error e => .error e
          | .ok a2 =>
            match d3 value with
            | .error e => .error e
            | .ok a3 =>
              match d4 value with
              | .error e => .error e
              | .ok a4 =>
                match d5 value with
                | .error e => .error e
                | .ok a5 =>
                  match d6 value with
                  | .error e => .error e
                  | .ok a6 =>
                    match d7 value with
                    | .error e => .error e
                    | .ok a7 =>
                      match d8 value with
                      | .error e => .error e
                      | .ok a8 =>
                        match d9 value with
                        | .error e => .error e
                        | .ok a9 =>
                          match d10 value with
                          | .error e => .error e
                          | .ok a10 =>
                            match d11 value with
                            | .error e => .error e
                            | .ok a11 =>
                              match d12 value with
                              | .error e => .error e
                              | .ok a12 =>
                                match d13 value with
                                | .error e => .error e
                                | .ok a13 =>
                                  match d14 value with
                                  | .error e => .error e
                                  | .ok a14 =>
                                    match d15 value with
                                    | .error e => .error e
                                    | .ok a15 =>
                                      match d16 value with
                                      | .error e => .error e
                                      | .ok a16 =>
                                        match d17 value with
                                        | .error e => .error e
                                        | .ok a17 =>
                                          match d18 value with
                                          | .error e => .error e
                                          | .ok a18 =>
                                            match d19 value with
                                            | .error e => .error e
                                            | .ok a19 =>
                                              match d20 value with
                                              | .error e => .error e
                                              | .ok a20 => .ok (func a1 a2 a3 a4 a5 a6 a7 a8 a9 a10 a11 a12 a13 a14 a15 a16 a17 a18 a19 a20)) := by
  refine ⟨?_, ?_, ?_, ?_, ?_, ?_, ?_, ?_, ?_, ?_, ?_, ?_, ?_, ?_, ?_, ?_, ?_, ?_, ?_, ?_⟩
  · intro A1 R func d1 value
    simp only [map]
    cases d1 value with
    | error e => rfl
    | ok a1 => rfl
  · intro A1 A2 R func d1 d2 value
    simp only [map2]
    cases d1 value with
    | error e => rfl
    | ok a1 =>
      cases d2 value with
      | error e => rfl
      | ok a2 => rfl
  · intro A1 A2 A3 R func d1 d2 d3 value
    simp only [map3]
    cases d1 value with
    | error e => rfl
    | ok a1 =>
      cases d2 value with
      | error e => rfl
      | ok a2 =>
        cases d3 value with
        | error e => rfl
        | ok a3 => rfl
  · intro A1 A2 A3 A4 R func d1 d2 d3 d4 value
    simp only [map4]
    cases d1 value with
    | error e => rfl
    | ok a1 =>
      cases d2 value with
      | error e => rfl
      | ok a2 =>
        cases d3 value with
        | error e => rfl
        | ok a3 =>
          cases d4 value with
          | error e => rfl
          | ok a4 => rfl
  · intro A1 A2 A3 A4 A5 R func d1 d2 d3 d4 d5 value
    simp only [map5]
    cases d1 value with
    | error e => rfl
    | ok a1 =>
      cases d2 value with
      | error e => rfl
      | ok a2 =>
        cases d3 value with
        | error e => rfl
        | ok a3 =>
          cases d4 value with
          | error e => rfl
          | ok a4 =>
            cases d5 value with
            | error e => rfl
            | ok a5 => rfl
  · intro A1 A2 A3 A4 A5 A6 R func d1 d2 d3 d4 d5 d6 value
    simp only [map6]
    cases d1 value with
    | error e => rfl
    | ok a1 =>
      cases d2 value with
      | error e => rfl
      | ok a2 =>
        cases d3 value with
        | error e => rfl
        | ok a3 =>
          cases d4 value with
          | error e => rfl
          | ok a4 =>
            cases d5 value with
            | error e => rfl
            | ok a5 =>
              cases d6 value with
              | error e => rfl
              | ok a6 => rfl
  · intro A1 A2 A3 A4 A5 A6 A7 R func d1 d2 d3 d4 d5 d6 d7 value
    simp only [map7]
    cases d1 value with
    | error e => rfl
    | ok a1 =>
      cases d2 value with
      | error e => rfl
      | ok a2 =>
        cases d3 value with
        | error e => rfl
        | ok a3 =>
          cases d4 value with
          | error e => rfl
          | ok a4 =>
            cases d5 value with
            | error e => rfl
            | ok a5 =>
              cases d6 value with
              | error e => rfl
              | ok a6 =>
                cases d7 value with
                | error e => rfl
                | ok a7 => rfl
  · intro A1 A2 A3 A4 A5 A6 A7 A8 R func d1 d2 d3 d4 d5 d6 d7 d8 value
    simp only [map8]
    cases d1 value with
    | error e => rfl
    | ok a1 =>
      cases d2 value with
      | error e => rfl
      | ok a2 =>
        cases d3 value with
        | error e => rfl
        | ok a3 =>
          cases d4 value with
          | error e => rfl
          | ok a4 =>
            cases d5 value with
            | error e => rfl
            | ok a5 =>
              cases d6 value with
              | error e => rfl
              | ok a6 =>
                cases d7 value with
                | error e => rfl
                | ok a7 =>
                  cases d8 value with
                  | error e => rfl
                  | ok a8 => rfl
  · intro A1 A2 A3 A4 A5 A6 A7 A8 A9 R func d1 d2 d3 d4 d5 d6 d7 d8 d9 value
    simp only [map9]
    cases d1 value with
    | error e => rfl
    | ok a1 =>
      cases d2 value with
      | error e => rfl
      | ok a2 =>
        cases d3 value with
        | error e => rfl
        | ok a3 =>
          cases d4 value with
          | error e => rfl
          | ok a4 =>
            cases d5 value with
            | error e => rfl
            | ok a5 =>
              cases d6 value with
              | error e => rfl
              | ok a6 =>
                cases d7 value with
                | error e => rfl
                | ok a7 =>
                  cases d8 value with
                  | error e => rfl
                  | ok a8 =>
                    cases d9 value with
                    | error e => rfl
                    | ok a9 => rfl
  · intro A1 A2 A3 A4 A5 A6 A7 A8 A9 A10 R func d1 d2 d3 d4 d5 d6 d7 d8 d9 d10 value
    simp only [map10]
    cases d1 value with
    | error e => rfl
    | ok a1 =>
      cases d2 value with
      | error e => rfl
      | ok a2 =>
        cases d3 value with
        | error e => rfl
        | ok a3 =>
          cases d4 value with
          | error e => rfl
          | ok a4 =>
            cases d5 value with
            | error e => rfl
            | ok a5 =>
              cases d6 value with
              | error e => rfl
              | ok a6 =>
                cases d7 value with
                | error e => rfl
                | ok a7 =>
                  cases d8 value with
                  | error e => rfl
                  | ok a8 =>
                    cases d9 value with
                    | error e => rfl
                    | ok a9 =>
                      cases d10 value with
                      | error e => rfl
                      | ok a10 => rfl
  · intro A1 A2 A3 A4 A5 A6 A7 A8 A9 A10 A11 R func d1 d2 d3 d4 d5 d6 d7 d8 d9 d10 d11 value
    simp only [map11]
    cases d1 value with
    | error e => rfl
    | ok a1 =>
      cases d2 value with
      | error e => rfl
      | ok a2 =>
        cases d3 value with
        | error e => rfl
        | ok a3 =>
          cases d4 value with
          | error e => rfl
          | ok a4 =>
            cases d5 value with
            | error e => rfl
            | ok a5 =>
              cases d6 value with
              | error e => rfl
              | ok a6 =>
                cases d7 value with
                | error e => rfl
                | ok a7 =>
                  cases d8 value with
                  | error e => rfl
                  | ok a8 =>
                    cases d9 value with
                    | error e => rfl
                    | ok a9 =>
                      cases d10 value with
                      | error e => rfl
                      | ok a10 =>
                        cases d11 value with
                        | error e => rfl
                        | ok a11 => rfl
  · intro A1 A2 A3 A4 A5 A6 A7 A8 A9 A10 A11 A12 R func d1 d2 d3 d4 d5 d6 d7 d8 d9 d10 d11 d12 value
    simp only [map12]
    cases d1 value with
    | error e => rfl
    | ok a1 =>
      cases d2 value with
      | error e => rfl
      | ok a2 =>
        cases d3 value with
        | error e => rfl
        | ok a3 =>
          cases d4 value with
          | error e => rfl
          | ok a4 =>
            cases d5 value with
            | error e => rfl
            | ok a5 =>
              cases d6 value with
              | error e => rfl
              | ok a6 =>
                cases d7 value with
                | error e => rfl
                | ok a7 =>
                  cases d8 value with
                  | error e => rfl
                  | ok a8 =>
                    cases d9 value with
                    | error e => rfl
                    | ok a9 =>
                      cases d10 value with
                      | error e => rfl
                      | ok a10 =>
                        cases d11 value with
                        | error e => rfl
                        | ok a11 =>
                          cases d12 value with
                          | error e => rfl
                          | ok a12 => rfl
  · intro A1 A2 A3 A4 A5 A6 A7 A8 A9 A10 A11 A12 A13 R func d1 d2 d3 d4 d5 d6 d7 d8 d9 d10 d11 d12 d13 value
    simp only [map13]
    cases d1 value with
    | error e => rfl
    | ok a1 =>
      cases d2 value with
      | error e => rfl
      | ok a2 =>
        cases d3 value with
        | error e => rfl
        | ok a3 =>
          cases d4 value with
          | error e => rfl
          | ok a4 =>
            cases d5 value with
            | error e => rfl
            | ok a5 =>
              cases d6 value with
              | error e => rfl
              | ok a6 =>
                cases d7 value with
                | error e => rfl
                | ok a7 =>
                  cases d8 value with
                  | error e => rfl
                  | ok a8 =>
                    cases d9 value with
                    | error e => rfl
                    | ok a9 =>
                      cases d10 value with
                      | error e => rfl
                      | ok a10 =>
                        cases d11 value with
                        | error e => rfl
                        | ok a11 =>
                          cases d12 value with
                          | error e => rfl
                          | ok a12 =>
                            cases d13 value with
                            | error e => rfl
                            | ok a13 => rfl
  · intro A1 A2 A3 A4 A5 A6 A7 A8 A9 A10 A11 A12 A13 A14 R func d1 d2 d3 d4 d5 d6 d7 d8 d9 d10 d11 d12 d13 d14 value
    simp only [map14]
    cases d1 value with
    | error e => rfl
    | ok a1 =>
      cases d2 value with
      | error e => rfl
      | ok a2 =>
        cases d3 value with
        | error e => rfl
        | ok a3 =>
          cases d4 value with
          | error e => rfl
          | ok a4 =>
            cases d5 value with
            | error e => rfl
            | ok a5 =>
              cases d6 value with
              | error e => rfl
              | ok a6 =>
                cases d7 value with
                | error e => rfl
                | ok a7 =>
                  cases d8 value with
                  | error e => rfl
                  | ok a8 =>
                    cases d9 value with
                    | error e => rfl
                    | ok a9 =>
                      cases d10 value with
                      | error e => rfl
                      | ok a10 =>
                        cases d11 value with
                        | error e => rfl
                        | ok a11 =>
                          cases d12 value with
                          | error e => rfl
                          | ok a12 =>
                            cases d13 value with
                            | error e => rfl
                            | ok a13 =>
                              cases d14 value with
                              | error e => rfl
                              | ok a14 => rfl
  · intro A1 A2 A3 A4 A5 A6 A7 A8 A9 A10 A11 A12 A13 A14 A15 R func d1 d2 d3 d4 d5 d6 d7 d8 d9 d10 d11 d12 d13 d14 d15 value
    simp only [map15]
    cases d1 value with
    | error e => rfl
    | ok a1 =>
      cases d2 value with
      | error e => rfl
      | ok a2 =>
        cases d3 value with
        | error e => rfl
        | ok a3 =>
          cases d4 value with
          | error e => rfl
          | ok a4 =>
            cases d5 value with
            | error e => rfl
            | ok a5 =>
              cases d6 value with
              | error e => rfl
              | ok a6 =>
                cases d7 value with
                | error e => rfl
                | ok a7 =>
                  cases d8 value with
                  | error e => rfl
                  | ok a8 =>
                    cases d9 value with
                    | error e => rfl
                    | ok a9 =>
                      cases d10 value with
                      | error e => rfl
                      | ok a10 =>
                        cases d11 value with
                        | error e => rfl
                        | ok a11 =>
                          cases d12 value with
                          | error e => rfl
                          | ok a12 =>
                            cases d13 value with
                            | error e => rfl
                            | ok a13 =>
                              cases d14 value with
                              | error e => rfl
                              | ok a14 =>
                                cases d15 value with
                                | error e => rfl
                                | ok a15 => rfl
  · intro A1 A2 A3 A4 A5 A6 A7 A8 A9 A10 A11 A12 A13 A14 A15 A16 R func d1 d2 d3 d4 d5 d6 d7 d8 d9 d10 d11 d12 d13 d14 d15 d16 value
    simp only [map16]
    cases d1 value with
    | error e => rfl
    | ok a1 =>
      cases d2 value with
      | error e => rfl
      | ok a2 =>
        cases d3 value with
        | error e => rfl
        | ok a3 =>
          cases d4 value with
          | error e => rfl
          | ok a4 =>
            cases d5 value with
            | error e => rfl
            | ok a5 =>
              cases d6 value with
              | error e => rfl
              | ok a6 =>
                cases d7 value with
                | error e => rfl
                | ok a7 =>
                  cases d8 value with
                  | error e => rfl
                  | ok a8 =>
                    cases d9 value with
                    | error e => rfl
                    | ok a9 =>
                      cases d10 value with
                      | error e => rfl
                      | ok a10 =>
                        cases d11 value with
                        | error e => rfl
                        | ok a11 =>
                          cases d12 value with
                          | error e => rfl
                          | ok a12 =>
                            cases d13 value with
                            | error e => rfl
                            | ok a13 =>
                              cases d14 value with
                              | error e => rfl
                              | ok a14 =>
                                cases d15 value with
                                | error e => rfl
                                | ok a15 =>
                                  cases d16 value with
                                  | error e => rfl
                                  | ok a16 => rfl
  · intro A1 A2 A3 A4 A5 A6 A7 A8 A9 A10 A11 A12 A13 A14 A15 A16 A17 R func d1 d2 d3 d4 d5 d6 d7 d8 d9 d10 d11 d12 d13 d14 d15 d16 d17 value
    simp only [map17]
    cases d1 value with
    | error e => rfl
    | ok a1 =>
      cases d2 value with
      | error e => rfl
      | ok a2 =>
        cases d3 value with
        | error e => rfl
        | ok a3 =>
          cases d4 value with
          | error e => rfl
          | ok a4 =>
            cases d5 value with
            | error e => rfl
            | ok a5 =>
              cases d6 value with
              | error e => rfl
              | ok a6 =>
                cases d7 value with
                | error e => rfl
                | ok a7 =>
                  cases d8 value with
                  | error e => rfl
                  | ok a8 =>
                    cases d9 value with
                    | error e => rfl
                    | ok a9 =>
                      cases d10 value with
                      | error e => rfl
                      | ok a10 =>
                        cases d11 value with
                        | error e => rfl
                        | ok a11 =>
                          cases d12 value with
                          | error e => rfl
                          | ok a12 =>
                            cases d13 value with
                            | error e => rfl
                            | ok a13 =>
                              cases d14 value with
                              | error e => rfl
                              | ok a14 =>
                                cases d15 value with
                                | error e => rfl
                                | ok a15 =>
                                  cases d16 value with
                                  | error e => rfl
                                  | ok a16 =>
                                    cases d17 value with
                                    | error e => rfl
                                    | ok a17 => rfl
  · intro A1 A2 A3 A4 A5 A6 A7 A8 A9 A10 A11 A12 A13 A14 A15 A16 A17 A18 R func d1 d2 d3 d4 d5 d6 d7 d8 d9 d10 d11 d12 d13 d14 d15 d16 d17 d18 value
    simp only [map18]
    cases d1 value with
    | error e => rfl
    | ok a1 =>
      cases d2 value with
      | error e => rfl
      | ok a2 =>
        cases d3 value with
        | error e => rfl
        | ok a3 =>
          cases d4 value with
          | error e => rfl
          | ok a4 =>
            cases d5 value with
            | error e => rfl
            | ok a5 =>
              cases d6 value with
              | error e => rfl
              | ok a6 =>
                cases d7 value with
                | error e => rfl
                | ok a7 =>
                  cases d8 value with
                  | error e => rfl
                  | ok a8 =>
                    cases d9 value with
                    | error e => rfl
                    | ok a9 =>
                      cases d10 value with
                      | error e => rfl
                      | ok a10 =>
                        cases d11 value with
                        | error e => rfl
                        | ok a11 =>
                          cases d12 value with
                          | error e => rfl
                          | ok a12 =>
                            cases d13 value with
                            | error e => rfl
                            | ok a13 =>
                              cases d14 value with
                              | error e => rfl
                              | ok a14 =>
                                cases d15 value with
                                | error e => rfl
                                | ok a15 =>
                                  cases d16 value with
                                  | error e => rfl
                                  | ok a16 =>
                                    cases d17 value with
                                    | error e => rfl
                                    | ok a17 =>
                                      cases d18 value with
                                      | error e => rfl
                                      | ok a18 => rfl
  · intro A1 A2 A3 A4 A5 A6 A7 A8 A9 A10 A11 A12 A13 A14 A15 A16 A17 A18 A19 R func d1 d2 d3 d4 d5 d6 d7 d8 d9 d10 d11 d12 d13 d14 d15 d16 d17 d18 d19 value
    simp only [map19]
    cases d1 value with
    | error e => rfl
    | ok a1 =>
      cases d2 value with
      | error e => rfl
      | ok a2 =>
        cases d3 value with
        | error e => rfl
        | ok a3 =>
          cases d4 value with
          | error e => rfl
          | ok a4 =>
            cases d5 value with
            | error e => rfl
            | ok a5 =>
              cases d6 value with
              | error e => rfl
              | ok a6 =>
                cases d7 value with
                | error e => rfl
                | ok a7 =>
                  cases d8 value with
                  | error e => rfl
                  | ok a8 =>
                    cases d9 value with
                    | error e => rfl
                    | ok a9 =>
                      cases d10 value with
                      | error e => rfl
                      | ok a10 =>
                        cases d11 value with
                        | error e => rfl
                        | ok a11 =>
                          cases d12 value with
                          | error e => rfl
                          | ok a12 =>
                            cases d13 value with
                            | error e => rfl
                            | ok a13 =>
                              cases d14 value with
                              | error e => rfl
                              | ok a14 =>
                                cases d15 value with
                                | error e => rfl
                                | ok a15 =>
                                  cases d16 value with
                                  | error e => rfl
                                  | ok a16 =>
                                    cases d17 value with
                                    | error e => rfl
                                    | ok a17 =>
                                      cases d18 value with
                                      | error e => rfl
                                      | ok a18 =>
                                        cases d19 value with
                                        | error e => rfl
                                        | ok a19 => rfl
  · intro A1 A2 A3 A4 A5 A6 A7 A8 A9 A10 A11 A12 A13 A14 A15 A16 A17 A18 A19 A20 R func d1 d2 d3 d4 d5 d6 d7 d8 d9 d10 d11 d12 d13 d14 d15 d16 d17 d18 d19 d20 value
    simp only [map20]
    cases d1 value with
    | error e => rfl
    | ok a1 =>
      cases d2 value with
      | error e => rfl
      | ok a2 =>
        cases d3 value with
        | error e => rfl
        | ok a3 =>
          cases d4 value with
          | error e => rfl
          | ok a4 =>
            cases d5 value with
            | error e => rfl
            | ok a5 =>
              cases d6 value with
              | error e => rfl
              | ok a6 =>
                cases d7 value with
                | error e => rfl
                | ok a7 =>
                  cases d8 value with
                  | error e => rfl
                  | ok a8 =>
                    cases d9 value with
                    | error e => rfl
                    | ok a9 =>
                      cases d10 value with
                      | error e => rfl
                      | ok a10 =>
                        cases d11 value with
                        | error e => rfl
                        | ok a11 =>
                          cases d12 value with
                          | error e => rfl
                          | ok a12 =>
                            cases d13 value with
                            | error e => rfl
                            | ok a13 =>
                              cases d14 value with
                              | error e => rfl
                              | ok a14 =>
                                cases d15 value with
                                | error e => rfl
                                | ok a15 =>
                                  cases d16 value with
                                  | error e => rfl
                                  | ok a16 =>
                                    cases d17 value with
                                    | error e => rfl
                                    | ok a17 =>
                                      cases d18 value with
                                      | error e => rfl
                                      | ok a18 =>
                                        cases d19 value with
                                        | error e => rfl
                                        | ok a19 =>
                                          cases d20 value with
                                          | error e => rfl
                                          | ok a20 => rfl

/-- C3: `field(name, inner)` fails with `IncorrectType("Object", text)` on a
value that is not an `Object`, fails with `MissingField(name, text of the
whole object)` when the key is absent, and otherwise returns exactly the
inner decoder's result on the looked-up member, success and error alike. -/
theorem field_decoder_spec (α : Type) (fieldName : String) (inner : Decoder α) :
    (∀ value : Value, value.isObj = false →
        field fieldName inner value = .error (.IncorrectType "Object" value.toText)) ∧
    (∀ fields : List (String × Value), fields.lookup fieldName = none →
        field fieldName inner (.obj fields) =
          .error (.MissingField fieldName (Value.obj fields).toText)) ∧
    (∀ (fields : List (String × Value)) (sub : Value), fields.lookup fieldName = some sub →
        field fieldName inner (.obj fields) = inner sub) := by
  refine ⟨?_, ?_, ?_⟩
  · intro value h
    cases value <;> first | rfl | simp [Value.isObj] at h
  · intro fields h
    simp [field, h]
  · intro fields sub h
    simp [field, h]

/-- Closed instance of `field_decoder_spec`: a present key delegates to the
inner decoder, a missing key reports the object's text, a non-object reports
its own text. -/
theorem field_decoder_spec_witness :
    field "a" string (.obj [("a", .str "x")]) = .ok "x" ∧
    field "a" string (.obj []) = .error (.MissingField "a" "\x7b\x7d") ∧
    field "a" string .null = .error (.IncorrectType "Object" "null") := by
  refine ⟨?_, ?_, ?_⟩
  · have h := (field_decoder_spec String "a" string).2.2 [("a", .str "x")] (.str "x") rfl
    simpa [string] using h
  · exact (field_decoder_spec String "a" string).2.1 [] rfl
  · exact (field_decoder_spec String "a" string).1 .null rfl

/-- C4: `list(inner)` fails with `IncorrectType("Array", text)` off the
`Array` tag; on an array it decodes the items in order and collects them,
the first failing item's error aborting the whole decode verbatim — so
`list(string())` on `["one", 5, ...]` fails with exactly the error
`string()` produces on `5`, whatever follows the failing index. -/
theorem list_decoder_spec (α : Type) (inner : Decoder α) :
    (∀ value : Value, value.isArray = false →
        list inner value = .error (.IncorrectType "Array" value.toText)) ∧
    list inner (.array []) = .ok [] ∧
    (∀ (item : Value) (rest : List Value),
        list inner (.array (item :: rest)) =
          match inner item with
          | .error e => .error e
          | .ok a => (list inner (.array rest)).map (fun tail => a :: tail)) ∧
    (∀ (rest : List Value) (e : DecodeError),
        string (.number (.posInt 5)) = .error e →
        list string (.array (.str "one" :: .number (.posInt 5) :: rest)) = .error e) := by
  refine ⟨?_, list_decode_nil inner, list_decode_cons inner, ?_⟩
  · intro value h
    cases value <;> first | rfl | simp [Value.isArray] at h
  · intro rest e h
    simp only [list_decode_cons, h]
    simp [string, Except.map]

/-- Closed instance of `list_decoder_spec`: order-preserving success, the
fail-fast error of the repository's examples, and the non-array error. -/
theorem list_decoder_spec_witness :
    list string (.array [.str "one", .str "two"]) = .ok ["one", "two"] ∧
    list string (.array [.str "one", .number (.posInt 5), .str "three"]) =
      .error (.IncorrectType "String" "5") ∧
    list string (.number (.posInt 7)) = .error (.IncorrectType "Array" "7") := by
  refine ⟨rfl, ?_, ?_⟩
  · exact (list_decoder_spec String string).2.2.2 [.str "three"]
      (.IncorrectType "String" "5") rfl
  · have h := (list_decoder_spec String string).1 (.number (.posInt 7)) rfl
    simpa using h

/-- C5: `option(D)` maps `Null` to `Ok(None)` and any other value to
`D.decode(v).map(Some)`: an inner failure propagates unchanged, and only
`Null` is treated as absence. -/
theorem option_decoder_spec (α : Type) (inner : Decoder α) :
    option inner .null = .ok none ∧
    (∀ value : Value, value.isNull = false →
        option inner value = (inner value).map some) := by
  refine ⟨rfl, ?_⟩
  intro value h
  cases value <;> first | rfl | simp [Value.isNull] at h

/-- Closed instance of `option_decoder_spec`: null maps to `None`, a decoded
string is wrapped in `Some`, and an inner type mismatch passes through. -/
theorem option_decoder_spec_witness :
    option string .null = .ok none ∧
    option string (.str "hello") = .ok (some "hello") ∧
    option string (.bool true) = .error (.IncorrectType "String" "true") := by
  refine ⟨(option_decoder_spec String string).1, ?_, ?_⟩
  · have h := (option_decoder_spec String string).2 (.str "hello") rfl
    simpa [string, Except.map] using h
  · have h := (option_decoder_spec String string).2 (.bool true) rfl
    simpa [string, Except.map] using h

/-- C6: `and_then(func, d)` short-circuits on `d`'s failure, returning `d`'s
error with `func` contributing nothing; `fail(message)` ignores its input and
always returns `Other(message)`; with the `test_and_then` transform,
`and_then(f, string())` fails on a non-string input with the string decoder's
own `IncorrectType` error, maps "fail" to `Err(Other("Go Away"))` and "ok"
to `Ok(Some("ok"))`. -/
theorem and_then_short_circuit :
    (∀ (A1 R : Type) (func : A1 → Decoder R) (d : Decoder A1) (value : Value) (e : DecodeError),
        d value = .error e → andThen func d value = .error e) ∧
    (∀ (R : Type) (message : String) (value : Value),
        (fail message : Decoder R) value = .error (.Other message)) ∧
    andThen andThenTestFn string (.number (.posInt 5)) = string (.number (.posInt 5)) ∧
    andThen andThenTestFn string (.str "fail") = .error (.Other "Go Away") ∧
    andThen andThenTestFn string (.str "ok") = .ok (some "ok") := by
    refine ⟨?_, fun R message value => rfl, rfl, rfl, rfl⟩
    intro A1 R func d value e h
    simp [andThen, h]

/-- Closed instance of `and_then_short_circuit`: the string decoder's own
error on a boolean input passes through `and_then` unchanged. -/
theorem and_then_short_circuit_witness :
    andThen andThenTestFn string (.bool true) = .error (.IncorrectType "String" "true") := by
  exact and_then_short_circuit.1 String (Option String) andThenTestFn string (.bool true)
    (.IncorrectType "String" "true") rfl

/-- C7: `unsigned_integer` rejects every negative numeric literal — a
negative integer literal parses to the `NegInt` variant and a fractional
literal to the `Float` variant, and `as_u64` reads neither — failing with
`InvalidInteger` carrying the value's textual snapshot. -/
theorem unsigned_integer_rejects_negative :
    (∀ n : Int, unsignedInteger (.number (.negInt n)) =
        .error (.InvalidInteger (Value.number (.negInt n)).toText)) ∧
    (∀ text : String, unsignedInteger (.number (.float text)) =
        .error (.InvalidInteger (Value.number (.float text)).toText)) :=
  ⟨fun _ => rfl, fun _ => rfl⟩

/-- Closed instance of `unsigned_integer_rejects_negative` at the literal -7. -/
theorem unsigned_integer_rejects_negative_witness :
    unsignedInteger (.number (.negInt (-7))) = .error (.InvalidInteger "-7") := by
  have h := unsigned_integer_rejects_negative.1 (-7)
  simpa using h

/-- C8: `string()` succeeds exactly on the `String` tag, returning the text,
and fails on every other tag with `IncorrectType("String", text of value)`. -/
theorem string_decoder_spec :
    (∀ s : String, string (.str s) = .ok s) ∧
    (∀ value : Value, value.isStringTag = false →
        string value = .error (.IncorrectType "String" value.toText)) := by
  refine ⟨fun s => rfl, ?_⟩
  intro value h
  cases value <;> first | rfl | simp [Value.isStringTag] at h

/-- Closed instance of `string_decoder_spec`: a string round-trips, a boolean
input reports its own rendered text. -/
theorem string_decoder_spec_witness :
    string (.str "hello") = .ok "hello" ∧
    string (.bool false) = .error (.IncorrectType "String" "false") := by
  refine ⟨string_decoder_spec.1 "hello", ?_⟩
  have h := string_decoder_spec.2 (.bool false) rfl
  simpa using h

/-- C10: on a `Number` input the float decoder never produces
`IntegerOverflow` or `IncorrectType`, and when the number has no 64-bit
float reading the error is `InvalidInteger` — the integer error kind — with
the value's textual snapshot, even though this is the float decoder. -/
theorem float_decoder_error_kind (F : Type) (asF64 : JNumber → Option F) (n : JNumber) :
    isOverflowError (float asF64 (.number n)) = false ∧
    isIncorrectTypeError (float asF64 (.number n)) = false ∧
    (asF64 n = none →
        float asF64 (.number n) = .error (.InvalidInteger (Value.number n).toText)) := by
  refine ⟨?_, ?_, ?_⟩
  · simp only [float]
    cases asF64 n <;> rfl
  · simp only [float]
    cases asF64 n <;> rfl
  · intro h
    simp [float, h]

/-- Closed instance of `float_decoder_error_kind` with a collaborator that
yields no f64 reading: the error kind is `InvalidInteger`. -/
theorem float_decoder_error_kind_witness :
    float (fun _ => (none : Option Unit)) (.number (.posInt 7)) =
      .error (.InvalidInteger "7") := by
  have h := (float_decoder_error_kind Unit (fun _ => none) (.posInt 7)).2.2 rfl
  simpa using h

end JsonDecode
